import Mathlib

/-!
# Verification of the Firestore REST adapter (`pages/firebase_utils.py`)

This development shallowly embeds the value codec, query builder and
document gateway of `pages/firebase_utils.py` and proves/refutes the
specification claims about them.

Conventions:
* Python dynamic values are modelled by the mutual inductive `PyVal` /
  `PyList` / `PyDict` (dicts are ordered association lists, as in Python).
* Firestore wire values (the `{"stringValue": ...}` tagged union) are the
  mutual inductive `WireVal` / `WireList` / `WireFields`; each constructor
  is one tag key.  A wire object carrying an unknown tag (the decoders'
  pass-through `else` branch) has no constructor here, since no operation
  of the adapter ever produces one.
* Python `str(int)` / `int(str)` are modelled by an explicit decimal
  printer and parser (`natToDecString`, `decStringToInt`, ...).
* `str.encode()` is modelled as the byte list of the code points; all
  concrete strings appearing in theorems are ASCII, where this coincides
  with UTF-8.
-/

/-! ## Decimal strings: the model of Python `str(int)` and `int(str)` -/

/-- The ASCII digit character for `d` (`0 ≤ d ≤ 9`). -/
def digitChar (d : Nat) : Char := Char.ofNat (48 + d)

/-- Numeric value of an ASCII digit character. -/
def charDigitVal (c : Char) : Nat := c.toNat - 48

/-- Python `str(n)` for a non-negative integer: most-significant digit
first, with `str(0) = "0"`. -/
def natToDecString (n : Nat) : String :=
  if n = 0 then "0" else String.mk (((Nat.digits 10 n).map digitChar).reverse)

/-- Python `int(s)` on a string of decimal digits. -/
def decStringToNat (s : String) : Nat :=
  s.data.foldl (fun a c => a * 10 + charDigitVal c) 0

/-- Python `str(i)` for an arbitrary integer. -/
def intToDecString : Int → String
  | Int.ofNat n => natToDecString n
  | Int.negSucc m => "-" ++ natToDecString (m + 1)

/-- Python `int(s)` on an optionally `-`-signed string of decimal digits. -/
def decStringToInt (s : String) : Int :=
  match s.data with
  | '-' :: rest => -(decStringToNat (String.mk rest) : Int)
  | _ => (decStringToNat s : Int)

theorem charDigitVal_digitChar {d : Nat} (hd : d < 10) :
    charDigitVal (digitChar d) = d := by
  interval_cases d <;> decide

theorem foldl_digits_reverse (ds : List Nat) (acc : Nat)
    (h : ∀ d ∈ ds, d < 10) :
    ((ds.map digitChar).reverse).foldl (fun a c => a * 10 + charDigitVal c) acc
      = acc * 10 ^ ds.length + Nat.ofDigits 10 ds := by
  induction ds generalizing acc with
  | nil => simp
  | cons d ds ih =>
    have hd : d < 10 := h d (by simp)
    have hds : ∀ x ∈ ds, x < 10 := fun x hx => h x (by simp [hx])
    simp only [List.map_cons, List.reverse_cons, List.foldl_append,
      List.foldl_cons, List.foldl_nil, ih _ hds, Nat.ofDigits_cons,
      List.length_cons, charDigitVal_digitChar hd]
    ring

theorem decStringToNat_natToDecString (n : Nat) :
    decStringToNat (natToDecString n) = n := by
  by_cases h : n = 0
  · subst h; decide
  · have hlt : ∀ d ∈ Nat.digits 10 n, d < 10 :=
      fun d hd => Nat.digits_lt_base (by norm_num) hd
    simp only [natToDecString, h, if_false, decStringToNat]
    simpa [foldl_digits_reverse _ 0 hlt] using Nat.ofDigits_digits 10 n

theorem natToDecString_data_digits (c : Char) (n : Nat)
    (hc : c ∈ (natToDecString n).data) : 48 ≤ c.toNat ∧ c.toNat < 58 := by
  by_cases h : n = 0
  · subst h
    simp only [natToDecString, if_pos rfl] at hc
    have : c = '0' := by simpa using hc
    subst this; decide
  · simp only [natToDecString, h, if_false] at hc
    rw [List.mem_reverse, List.mem_map] at hc
    obtain ⟨d, hd, rfl⟩ := hc
    have : d < 10 := Nat.digits_lt_base (by norm_num) hd
    interval_cases d <;> decide

theorem decStringToInt_of_digits (s : String)
    (h : ∀ c ∈ s.data, c ≠ '-') :
    decStringToInt s = (decStringToNat s : Int) := by
  unfold decStringToInt
  split
  · rename_i heq
    exact absurd rfl (h '-' (by rw [heq]; simp))
  · rfl

theorem decStringToInt_intToDecString (i : Int) :
    decStringToInt (intToDecString i) = i := by
  cases i with
  | ofNat n =>
    have h : ∀ c ∈ (natToDecString n).data, c ≠ '-' := by
      intro c hc hne
      have := natToDecString_data_digits c n hc
      subst hne
      revert this; decide
    simp only [intToDecString]
    rw [decStringToInt_of_digits _ h, decStringToNat_natToDecString]
    rfl
  | negSucc m =>
    have hdata : ("-" ++ natToDecString (m + 1)).data
        = '-' :: (natToDecString (m + 1)).data := rfl
    simp only [intToDecString, decStringToInt, hdata]
    have : String.mk (natToDecString (m + 1)).data = natToDecString (m + 1) := rfl
    rw [this, decStringToNat_natToDecString]
    simp [Int.negSucc_eq]

/-! ## Host values and wire values -/

mutual

/-- A Python dynamic value of the shapes the adapter handles: `str`,
`int`, `bool`, `float` (the payload is modelled opaquely as a rational;
no claim depends on float arithmetic), `None`, `list`, `dict` (ordered,
string-keyed, as the adapter only ever builds). -/
inductive PyVal : Type where
  | pystr (s : String)
  | pyint (i : Int)
  | pybool (b : Bool)
  | pyfloat (q : Rat)
  | pynone
  | pylist (xs : PyList)
  | pydict (fs : PyDict)

/-- A Python list of `PyVal`s. -/
inductive PyList : Type where
  | nil
  | cons (v : PyVal) (tl : PyList)

/-- A Python dict of `PyVal`s: ordered string-keyed association list. -/
inductive PyDict : Type where
  | nil
  | cons (k : String) (v : PyVal) (tl : PyDict)

end

mutual

/-- A Firestore REST wire value: a tagged union keyed by exactly one of
the tag keys the adapter reads and writes.  `integerValue` carries its
decimal-string payload, as on the wire. -/
inductive WireVal : Type where
  | stringValue (s : String)
  | integerValue (s : String)
  | doubleValue (q : Rat)
  | booleanValue (b : Bool)
  | nullValue
  | timestampValue (s : String)
  | arrayValue (vs : WireList)
  | mapValue (fs : WireFields)

/-- The `values` list of an `arrayValue` (absent `values` ≡ empty). -/
inductive WireList : Type where
  | nil
  | cons (v : WireVal) (tl : WireList)

/-- The `fields` map of a `mapValue` (absent `fields` ≡ empty). -/
inductive WireFields : Type where
  | nil
  | cons (k : String) (v : WireVal) (tl : WireFields)

end

/-! ## Python `str()` / `repr()` rendering (used for f-string cache keys,
`str(document_id)`, and the encoders' stringify fallbacks).  `repr` of a
string is modelled without escape sequences (none of the concrete strings
in this development need escaping); `str` of a float is rendered from the
opaque rational payload, and no claim depends on its exact form. -/

/-- Decimal-ish rendering of the opaque float payload. -/
def floatStr (q : Rat) : String :=
  intToDecString q.num ++ (if q.den = 1 then ".0" else "/" ++ natToDecString q.den)

/-- `", "`-join, as `", ".join(...)`. -/
def joinComma : List String → String
  | [] => ""
  | [s] => s
  | s :: rest => s ++ ", " ++ joinComma rest

mutual

/-- Python `repr(v)`. -/
def pyRepr : PyVal → String
  | .pystr s => "\x27" ++ s ++ "\x27"
  | .pyint i => intToDecString i
  | .pybool b => if b then "True" else "False"
  | .pyfloat q => floatStr q
  | .pynone => "None"
  | .pylist xs => "[" ++ joinComma (pyReprList xs) ++ "]"
  | .pydict fs => "\x7b" ++ joinComma (pyReprDict fs) ++ "\x7d"

/-- `repr` of each element of a list. -/
def pyReprList : PyList → List String
  | .nil => []
  | .cons v tl => pyRepr v :: pyReprList tl

/-- `repr(k): repr(v)` for each entry of a dict. -/
def pyReprDict : PyDict → List String
  | .nil => []
  | .cons k v tl => ("\x27" ++ k ++ "\x27" ++ ": " ++ pyRepr v) :: pyReprDict tl

end

/-- Python `str(v)`: identical to `repr(v)` except on strings. -/
def pyStr : PyVal → String
  | .pystr s => s
  | v => pyRepr v

/-! ## The class value codec
(`FirestoreClient._convert_to_firestore_format` /
`FirestoreClient._convert_firestore_document`) -/

mutual

/-- `_convert_to_firestore_format.convert_value` (lines 142-160): the
`value is True` / `value is False` guards run first, so `bool` never
reaches the `isinstance(value, int)` branch; every other branch follows
the source order.  The final `str(value)` fallback is unreachable on
`PyVal`, whose constructors are exactly the types the guards test. -/
def clientConvertValue : PyVal → WireVal
  | .pybool true => .booleanValue true
  | .pybool false => .booleanValue false
  | .pystr s => .stringValue s
  | .pyint i => .integerValue (intToDecString i)
  | .pyfloat q => .doubleValue q
  | .pylist xs => .arrayValue (clientConvertList xs)
  | .pynone => .nullValue
  | .pydict fs => .mapValue (clientConvertFields fs)

/-- `[convert_value(v) for v in value]`. -/
def clientConvertList : PyList → WireList
  | .nil => .nil
  | .cons v tl => .cons (clientConvertValue v) (clientConvertList tl)

/-- `{k: convert_value(v) for k, v in value.items()}`. -/
def clientConvertFields : PyDict → WireFields
  | .nil => .nil
  | .cons k v tl => .cons k (clientConvertValue v) (clientConvertFields tl)

end

/-- `_convert_to_firestore_format` itself: converts every field of the
data dict (line 161). -/
def convert_to_firestore_format (data : PyDict) : WireFields :=
  clientConvertFields data

mutual

/-- `_convert_firestore_document.convert_value` (lines 165-183), also
textually identical to the module-level `convert_firestore_value`
(lines 491-514): dispatch on which tag key is present; `integerValue`
is parsed with `int(...)`, `doubleValue` passes through `float(...)`
(identity on the float payload), `timestampValue` decodes to its raw
string. -/
def convert_firestore_value : WireVal → PyVal
  | .stringValue s => .pystr s
  | .integerValue s => .pyint (decStringToInt s)
  | .doubleValue q => .pyfloat q
  | .booleanValue b => .pybool b
  | .nullValue => .pynone
  | .timestampValue s => .pystr s
  | .arrayValue vs => .pylist (convert_firestore_list vs)
  | .mapValue fs => .pydict (convert_firestore_fields fs)

/-- `[convert_value(item) for item in value['arrayValue'].get('values', [])]`. -/
def convert_firestore_list : WireList → PyList
  | .nil => .nil
  | .cons v tl => .cons (convert_firestore_value v) (convert_firestore_list tl)

/-- `{k: convert_value(v) for k, v in value['mapValue'].get('fields', {}).items()}`. -/
def convert_firestore_fields : WireFields → PyDict
  | .nil => .nil
  | .cons k v tl => .cons k (convert_firestore_value v) (convert_firestore_fields tl)

end

mutual

theorem convert_firestore_value_clientConvertValue (v : PyVal) :
    convert_firestore_value (clientConvertValue v) = v := by
  cases v with
  | pystr s => rfl
  | pyint i =>
    simp only [clientConvertValue, convert_firestore_value,
      decStringToInt_intToDecString]
  | pybool b => cases b <;> rfl
  | pyfloat q => rfl
  | pynone => rfl
  | pylist xs =>
    simp only [clientConvertValue, convert_firestore_value,
      convert_firestore_list_clientConvertList]
  | pydict fs =>
    simp only [clientConvertValue, convert_firestore_value,
      convert_firestore_fields_clientConvertFields]

theorem convert_firestore_list_clientConvertList (xs : PyList) :
    convert_firestore_list (clientConvertList xs) = xs := by
  cases xs with
  | nil => rfl
  | cons v tl =>
    simp only [clientConvertList, convert_firestore_list,
      convert_firestore_value_clientConvertValue,
      convert_firestore_list_clientConvertList]

theorem convert_firestore_fields_clientConvertFields (fs : PyDict) :
    convert_firestore_fields (clientConvertFields fs) = fs := by
  cases fs with
  | nil => rfl
  | cons k v tl =>
    simp only [clientConvertFields, convert_firestore_fields,
      convert_firestore_value_clientConvertValue,
      convert_firestore_fields_clientConvertFields]

end

/-- C1: decoding the encoding of any supported host value returns that
value, and a float boxed as `doubleValue` never decodes to an integer
value (no int/float coercion across the boundary). -/
theorem C1_value_codec_roundtrip :
    (∀ v : PyVal, convert_firestore_value (clientConvertValue v) = v) ∧
    (∀ (q : Rat) (i : Int),
      convert_firestore_value (clientConvertValue (PyVal.pyfloat q)) ≠ PyVal.pyint i) := by
  refine ⟨convert_firestore_value_clientConvertValue, fun q i h => ?_⟩
  rw [convert_firestore_value_clientConvertValue] at h
  exact PyVal.noConfusion h

/-! ## Wire documents and document decoding -/

/-- A wire document as the decoders see it: it may or may not carry a
`fields` key. -/
structure WireDoc : Type where
  fields : Option WireFields

/-- `convert_firestore_document` (module level, lines 478-489; the class
method `_convert_firestore_document`, lines 163-186, has the identical
shape): `None` when the wire document lacks a `fields` key, otherwise
every entry of `fields` decoded by the value decoder. -/
def convert_firestore_document (d : WireDoc) : Option PyDict :=
  match d.fields with
  | Option.none => Option.none
  | Option.some fs => Option.some (convert_firestore_fields fs)

/-- C4: document decoding returns the absence sentinel `None` exactly
when the wire document lacks a `fields` key (in particular never an
empty map for a fieldless document), and decodes every entry of
`fields` via the value decoder when it is present. -/
theorem C4_document_decode :
    (∀ d : WireDoc, convert_firestore_document d = Option.none ↔ d.fields = Option.none) ∧
    (∀ (d : WireDoc) (fs : WireFields), d.fields = Option.some fs →
      convert_firestore_document d = Option.some (convert_firestore_fields fs)) := by
  constructor
  · intro d
    cases hd : d.fields <;> simp [convert_firestore_document, hd]
  · intro d fs hd
    simp [convert_firestore_document, hd]

/-- Closed witness for C4: a fieldless wire document decodes to the
sentinel, and a one-field document decodes its field. -/
theorem C4_document_decode_witness :
    (WireDoc.mk (Option.some (WireFields.cons "a" (WireVal.stringValue "x") WireFields.nil))).fields
        = Option.some (WireFields.cons "a" (WireVal.stringValue "x") WireFields.nil) ∧
    convert_firestore_document
        (WireDoc.mk (Option.some (WireFields.cons "a" (WireVal.stringValue "x") WireFields.nil)))
      = Option.some (convert_firestore_fields
          (WireFields.cons "a" (WireVal.stringValue "x") WireFields.nil)) :=
  ⟨rfl, C4_document_decode.2
    (WireDoc.mk (Option.some (WireFields.cons "a" (WireVal.stringValue "x") WireFields.nil)))
    (WireFields.cons "a" (WireVal.stringValue "x") WireFields.nil) rfl⟩

/-! ## MD5 (the model of `hashlib.md5(...).hexdigest()` used for cache
keys).  32-bit words are `Nat`s reduced `% 4294967296` at every step. -/

/-- The 64 MD5 round constants `floor(abs(sin(i+1)) * 2^32)`. -/
def md5K : List Nat := [3614090360, 3905402710, 606105819, 3250441966, 4118548399, 1200080426, 2821735955, 4249261313, 1770035416, 2336552879, 4294925233, 2304563134, 1804603682, 4254626195, 2792965006, 1236535329, 4129170786, 3225465664, 643717713, 3921069994, 3593408605, 38016083, 3634488961, 3889429448, 568446438, 3275163606, 4107603335, 1163531501, 2850285829, 4243563512, 1735328473, 2368359562, 4294588738, 2272392833, 1839030562, 4259657740, 2763975236, 1272893353, 4139469664, 3200236656, 681279174, 3936430074, 3572445317, 76029189, 3654602809, 3873151461, 530742520, 3299628645, 4096336452, 1126891415, 2878612391, 4237533241, 1700485571, 2399980690, 4293915773, 2240044497, 1873313359, 4264355552, 2734768916, 1309151649, 4149444226, 3174756917, 718787259, 3951481745]

/-- The per-round left-rotation amounts. -/
def md5S : List Nat := [7, 12, 17, 22, 7, 12, 17, 22, 7, 12, 17, 22, 7, 12, 17, 22, 5, 9, 14, 20, 5, 9, 14, 20, 5, 9, 14, 20, 5, 9, 14, 20, 4, 11, 16, 23, 4, 11, 16, 23, 4, 11, 16, 23, 4, 11, 16, 23, 6, 10, 15, 21, 6, 10, 15, 21, 6, 10, 15, 21, 6, 10, 15, 21]

/-- 32-bit bitwise complement. -/
def md5Not (x : Nat) : Nat := x ^^^ 4294967295

/-- 32-bit left rotation. -/
def md5Rotl (x s : Nat) : Nat := ((x <<< s) ||| (x >>> (32 - s))) % 4294967296

/-- The four MD5 round mixing functions, selected by round index. -/
def md5F (i b c d : Nat) : Nat :=
  if i < 16 then (b &&& c) ||| (md5Not b &&& d)
  else if i < 32 then (d &&& b) ||| (md5Not d &&& c)
  else if i < 48 then b ^^^ c ^^^ d
  else c ^^^ (b ||| md5Not d)

/-- The message-word schedule. -/
def md5G (i : Nat) : Nat :=
  if i < 16 then i
  else if i < 32 then (5 * i + 1) % 16
  else if i < 48 then (3 * i + 5) % 16
  else (7 * i) % 16

/-- The four 32-bit MD5 chaining words. -/
structure MD5State where
  a : Nat
  b : Nat
  c : Nat
  d : Nat

/-- Word `g` of a 64-byte block, little-endian. -/
def md5Word (block : List Nat) (g : Nat) : Nat :=
  block.getD (4 * g) 0 + 256 * block.getD (4 * g + 1) 0
    + 65536 * block.getD (4 * g + 2) 0 + 16777216 * block.getD (4 * g + 3) 0

/-- One MD5 round. -/
def md5Step (block : List Nat) (st : MD5State) (i : Nat) : MD5State :=
  let f := (md5F i st.b st.c st.d + st.a + md5K.getD i 0 + md5Word block (md5G i)) % 4294967296
  ⟨st.d, (st.b + md5Rotl f (md5S.getD i 0)) % 4294967296, st.b, st.c⟩

/-- Process one 64-byte block: 64 rounds, then add into the chaining state. -/
def md5ProcessBlock (st : MD5State) (block : List Nat) : MD5State :=
  let e := (List.range 64).foldl (md5Step block) st
  ⟨(st.a + e.a) % 4294967296, (st.b + e.b) % 4294967296,
   (st.c + e.c) % 4294967296, (st.d + e.d) % 4294967296⟩

/-- MD5 padding: `0x80`, zeros to 56 mod 64, then the bit length as
eight little-endian bytes. -/
def md5Pad (msg : List Nat) : List Nat :=
  msg ++ 128 :: List.replicate ((119 - msg.length % 64) % 64) 0
    ++ (List.range 8).map (fun i => ((8 * msg.length % 18446744073709551616) >>> (8 * i)) % 256)

/-- Split into 64-byte blocks; the fuel argument (instantiated with the
list length, an upper bound on the block count) keeps the recursion
structural. -/
def md5ChunksFuel : Nat → List Nat → List (List Nat)
  | 0, _ => []
  | _, [] => []
  | fuel + 1, b :: rest => ((b :: rest).take 64) :: md5ChunksFuel fuel ((b :: rest).drop 64)

/-- Split a padded message into its 64-byte blocks. -/
def md5Chunks (l : List Nat) : List (List Nat) := md5ChunksFuel l.length l

/-- The four little-endian bytes of a 32-bit word. -/
def md5WordBytes (w : Nat) : List Nat :=
  [w % 256, (w >>> 8) % 256, (w >>> 16) % 256, (w >>> 24) % 256]

/-- The 16-byte MD5 digest of a byte list. -/
def md5Bytes (msg : List Nat) : List Nat :=
  let st := (md5Chunks (md5Pad msg)).foldl md5ProcessBlock
    ⟨1732584193, 4023233417, 2562383102, 271733878⟩
  md5WordBytes st.a ++ md5WordBytes st.b ++ md5WordBytes st.c ++ md5WordBytes st.d

/-- Lowercase hex digit. -/
def hexDigitChar (n : Nat) : Char := if n < 10 then Char.ofNat (48 + n) else Char.ofNat (87 + n)

/-- Two lowercase hex digits of a byte. -/
def byteToHex (b : Nat) : List Char := [hexDigitChar (b / 16), hexDigitChar (b % 16)]

/-- `hashlib.md5(bytes).hexdigest()`. -/
def md5HexBytes (msg : List Nat) : String := String.mk ((md5Bytes msg).map byteToHex).flatten

/-- `s.encode()`: the bytes of a string, modelled for ASCII data as the
code points (where UTF-8 coincides). -/
def strBytes (s : String) : List Nat := s.data.map Char.toNat

/-- `hashlib.md5(s.encode()).hexdigest()`. -/
def md5Hexdigest (s : String) : String := md5HexBytes (strBytes s)

/-- Python `s.isalnum()` (ASCII model): non-empty and every character
alphanumeric. -/
def pyIsAlnum (s : String) : Bool :=
  !s.data.isEmpty && s.data.all (fun c => c.isAlphanum)

theorem mem_md5WordBytes_lt {b w : Nat} (hb : b ∈ md5WordBytes w) : b < 256 := by
  simp only [md5WordBytes, List.mem_cons, List.not_mem_nil, or_false] at hb
  rcases hb with rfl | rfl | rfl | rfl <;> exact Nat.mod_lt _ (by norm_num)

theorem mem_md5Bytes_lt {msg : List Nat} {b : Nat} (hb : b ∈ md5Bytes msg) : b < 256 := by
  simp only [md5Bytes, List.mem_append] at hb
  rcases hb with ((h | h) | h) | h <;> exact mem_md5WordBytes_lt h

theorem hexDigitChar_isAlphanum {n : Nat} (h : n < 16) : (hexDigitChar n).isAlphanum = true := by
  interval_cases n <;> decide

theorem mem_byteToHex_isAlphanum {b : Nat} (hb : b < 256) {c : Char}
    (hc : c ∈ byteToHex b) : c.isAlphanum = true := by
  simp only [byteToHex, List.mem_cons, List.not_mem_nil, or_false] at hc
  rcases hc with rfl | rfl
  · exact hexDigitChar_isAlphanum (by omega)
  · exact hexDigitChar_isAlphanum (Nat.mod_lt _ (by norm_num))

theorem pyIsAlnum_md5HexBytes (msg : List Nat) : pyIsAlnum (md5HexBytes msg) = true := by
  simp only [pyIsAlnum, md5HexBytes, Bool.and_eq_true, Bool.not_eq_true',
    List.all_eq_true]
  constructor
  · simp only [md5Bytes]
    rfl
  · intro c hc
    rw [List.mem_flatten] at hc
    obtain ⟨l, hl, hcl⟩ := hc
    rw [List.mem_map] at hl
    obtain ⟨b, hb, rfl⟩ := hl
    exact mem_byteToHex_isAlphanum (mem_md5Bytes_lt hb) hcl

/-- A hex digest is alphanumeric, so it never equals a non-alphanumeric
string. -/
theorem md5Hexdigest_ne_of_not_alnum {s : String} (h : pyIsAlnum s = false) :
    md5Hexdigest s ≠ s := by
  intro he
  have halnum := pyIsAlnum_md5HexBytes (strBytes s)
  rw [show md5HexBytes (strBytes s) = md5Hexdigest s from rfl, he, h] at halnum
  cases halnum

/-! ## The cache collaborator and the document gateway -/

/-- The external cache: an ordered association of keys to stored values.
A stored value is a decoded document, which may itself be Python `None`
(a fieldless document), hence `Option PyDict`. -/
abbrev Cache : Type := List (String × Option PyDict)

/-- `cache.get(key)`: `none` when the key is absent. -/
def cacheGet (c : Cache) (k : String) : Option (Option PyDict) :=
  (List.find? (fun kv => kv.1 == k) c).map (fun kv => kv.2)

/-- The value a cached read returns: present and not Python `None`
(`cached_result is not None`, line 83). -/
def cacheHitVal (c : Cache) (k : String) : Option PyDict :=
  match cacheGet c k with
  | Option.some (Option.some v) => Option.some v
  | _ => Option.none

/-- `cache.set(key, value, timeout)`: replace in place when the key is
present, else append (the TTL is not modelled; no claim depends on it). -/
def cacheSet (c : Cache) (k : String) (v : Option PyDict) : Cache :=
  if c.any (fun kv => kv.1 == k) then
    c.map (fun kv => if kv.1 == k then (k, v) else kv)
  else c ++ [(k, v)]

/-- `cache.delete(key)`. -/
def cacheDelete (c : Cache) (k : String) : Cache :=
  c.filter (fun kv => kv.1 != k)

/-- Lines 76-79 of `get_document`: the id is used directly when it is a
plain alphanumeric string, otherwise replaced by
`hashlib.md5(str(document_id).encode()).hexdigest()`. -/
def safe_document_id (document_id : PyVal) : String :=
  match document_id with
  | .pystr s => if pyIsAlnum s then s else md5Hexdigest s
  | other => md5Hexdigest (pyStr other)

/-- The cache key `get_document` reads and writes (line 80). -/
def get_cache_key (collection : String) (document_id : PyVal) : String :=
  "firestore_" ++ collection ++ "_" ++ safe_document_id document_id

/-- The cache key the write paths delete (lines 111, 124, 135):
`f"firestore_{collection}_{document_id}"` interpolates the raw id via
`str(...)`, without the `safe_document_id` sanitisation. -/
def write_cache_key (collection : String) (document_id : PyVal) : String :=
  "firestore_" ++ collection ++ "_" ++ pyStr document_id

/-- The environment's response to one HTTP request: a status code and,
for document reads, the body parsed as a wire document. -/
structure HttpResponse where
  status : Nat
  doc : WireDoc

/-- Which operator-visible log line the `get_document` branches emit:
info lines on the cached and 200 paths, `logger.warning` on 404
(line 98), `logger.error` on any other status (line 102). -/
inductive GetLog : Type where
  | hitLog
  | successLog
  | notFoundLog
  | errorLog
deriving DecidableEq

/-- The observable outcome of `get_document`: the returned value, the
resulting cache state, and the log branch taken. -/
structure GetDocumentResult where
  result : Option PyDict
  cache : Cache
  log : GetLog

/-- `FirestoreClient.get_document` (lines 74-103), with the HTTP layer
abstracted as the response `resp` the GET would produce: return the
cached value when caching is enabled and the stored value is not `None`;
otherwise dispatch on the status: 200 decodes the body and (when caching
is enabled) stores the result; 404 returns the absence sentinel; any
other status also returns the absence sentinel, distinguished only by
the error log.  No cache write happens off the 200 path. -/
def get_document (collection : String) (document_id : PyVal) (use_cache : Bool)
    (c : Cache) (resp : HttpResponse) : GetDocumentResult :=
  let key := get_cache_key collection document_id
  match (if use_cache then cacheHitVal c key else Option.none) with
  | Option.some v => ⟨Option.some v, c, GetLog.hitLog⟩
  | Option.none =>
    if resp.status = 200 then
      let result := convert_firestore_document resp.doc
      ⟨result, if use_cache then cacheSet c key result else c, GetLog.successLog⟩
    else if resp.status = 404 then
      ⟨Option.none, c, GetLog.notFoundLog⟩
    else
      ⟨Option.none, c, GetLog.errorLog⟩

/-- `FirestoreClient.set_document` (lines 105-115): PATCH the document
with body `{"fields": convert_to_firestore_format(data)}`; on status 200
delete the raw-id cache key and return `True`, otherwise return `False`
with the cache untouched. -/
def set_document (collection : String) (document_id : PyVal) (_data : PyDict)
    (c : Cache) (resp : HttpResponse) : Bool × Cache :=
  if resp.status = 200 then
    (true, cacheDelete c (write_cache_key collection document_id))
  else (false, c)

/-- `list(updates.keys())`. -/
def pyDictKeys : PyDict → List String
  | .nil => []
  | .cons k _ tl => k :: pyDictKeys tl

/-- A query-parameter value: a string or a list of strings (the only
shapes the adapter sends). -/
inductive ParamVal : Type where
  | str (s : String)
  | strList (ss : List String)
deriving DecidableEq

/-- The params dict `update_document` passes to `_make_request`
(line 119): the field mask is exactly `list(updates.keys())`. -/
def update_document_params (updates : PyDict) : List (String × ParamVal) :=
  [("updateMask.fieldPaths", ParamVal.strList (pyDictKeys updates))]

/-- `FirestoreClient.update_document` (lines 117-128): cache effect and
return flag (the PATCH carries `update_document_params updates` and body
`{"fields": convert_to_firestore_format(updates)}`). -/
def update_document (collection : String) (document_id : PyVal) (_updates : PyDict)
    (c : Cache) (resp : HttpResponse) : Bool × Cache :=
  if resp.status = 200 then
    (true, cacheDelete c (write_cache_key collection document_id))
  else (false, c)

/-- `FirestoreClient.delete_document` (lines 130-139). -/
def delete_document (collection : String) (document_id : PyVal)
    (c : Cache) (resp : HttpResponse) : Bool × Cache :=
  if resp.status = 200 then
    (true, cacheDelete c (write_cache_key collection document_id))
  else (false, c)

/-- Python dict assignment `params[k] = v`: replace in place when the
key is present, else append. -/
def dictSetParam (ps : List (String × ParamVal)) (k : String) (v : ParamVal) :
    List (String × ParamVal) :=
  if ps.any (fun kv => kv.1 == k) then
    ps.map (fun kv => if kv.1 == k then (k, v) else kv)
  else ps ++ [(k, v)]

/-- `if 'token' in params: params.pop('token')` (lines 63-65). -/
def dictPopToken (ps : List (String × ParamVal)) : List (String × ParamVal) :=
  if ps.any (fun kv => kv.1 == "token") then
    ps.filter (fun kv => kv.1 != "token")
  else ps

/-- `FirestoreClient._make_request` (lines 59-72), params handling: the
shared API key is attached under `'key'`, then a caller-supplied
`'token'` entry, if present, is popped before dispatch. -/
def make_request_params (api_key : String) (params : List (String × ParamVal)) :
    List (String × ParamVal) :=
  dictPopToken (dictSetParam params "key" (ParamVal.str api_key))

/-! ## Helper lemmas -/

theorem string_append_left_cancel {p x y : String} (h : p ++ x = p ++ y) : x = y := by
  obtain ⟨pd⟩ := p
  obtain ⟨xd⟩ := x
  obtain ⟨yd⟩ := y
  have hd : pd ++ xd = pd ++ yd := congrArg String.data h
  exact congrArg String.mk (List.append_cancel_left hd)

theorem cacheHitVal_cacheDelete (c : Cache) (k : String) :
    cacheHitVal (cacheDelete c k) k = Option.none := by
  have hfind : List.find? (fun kv => kv.1 == k) (cacheDelete c k) = Option.none := by
    rw [List.find?_eq_none]
    intro kv hkv
    rw [cacheDelete, List.mem_filter] at hkv
    simpa using hkv.2
  simp [cacheHitVal, cacheGet, hfind]

theorem mem_dictSetParam_self (ps : List (String × ParamVal)) (k : String) (v : ParamVal) :
    (k, v) ∈ dictSetParam ps k v := by
  unfold dictSetParam
  split
  · rename_i h
    rw [List.any_eq_true] at h
    obtain ⟨kv, hkv, hb⟩ := h
    rw [List.mem_map]
    exact ⟨kv, hkv, by simp [hb]⟩
  · simp

theorem mem_dictSetParam_key {ps : List (String × ParamVal)} {k : String} {v w : ParamVal}
    (hw : (k, w) ∈ dictSetParam ps k v) : w = v := by
  unfold dictSetParam at hw
  split at hw
  · rw [List.mem_map] at hw
    obtain ⟨kv, hkv, hf⟩ := hw
    by_cases hk : kv.1 == k
    · rw [if_pos hk] at hf
      exact (Prod.mk.injEq .. ▸ hf).2.symm
    · rw [if_neg hk] at hf
      rw [hf] at hk
      simp at hk
  · rw [List.mem_append] at hw
    rcases hw with hw | hw
    · exfalso
      rename_i h
      rw [Bool.not_eq_true, List.any_eq_false] at h
      exact absurd (by simp) (h _ hw)
    · have : ((k : String), w) = (k, v) := by simpa using hw
      exact (Prod.mk.injEq .. ▸ this).2

/-! ## C8: API key attachment and token stripping -/

/-- C8: every request `_make_request` dispatches carries the shared API
key under the `key` query parameter (and only that value for `key`), and
never carries a `token` query parameter, whatever the caller supplied. -/
theorem C8_api_key_attached_token_stripped (api_key : String)
    (params : List (String × ParamVal)) :
    ("key", ParamVal.str api_key) ∈ make_request_params api_key params ∧
    (∀ v, ("key", v) ∈ make_request_params api_key params → v = ParamVal.str api_key) ∧
    (∀ v, ("token", v) ∉ make_request_params api_key params) := by
  unfold make_request_params dictPopToken
  refine ⟨?_, ?_, ?_⟩
  · split
    · rw [List.mem_filter]
      exact ⟨mem_dictSetParam_self params "key" (ParamVal.str api_key), by simp⟩
    · exact mem_dictSetParam_self params "key" (ParamVal.str api_key)
  · intro v hv
    split at hv
    · exact mem_dictSetParam_key (List.mem_filter.1 hv).1
    · exact mem_dictSetParam_key hv
  · intro v hv
    split at hv
    · have := (List.mem_filter.1 hv).2
      simp at this
    · rename_i h
      rw [Bool.not_eq_true, List.any_eq_false] at h
      exact absurd (by simp) (h _ hv)

/-- Closed check of C8 on a concrete call: a caller-supplied `token`
entry is gone and the key is attached. -/
theorem C8_witness :
    ("key", ParamVal.str "AIza") ∈
      make_request_params "AIza" [("token", ParamVal.str "secret")] ∧
    ("token", ParamVal.str "secret") ∉
      make_request_params "AIza" [("token", ParamVal.str "secret")] :=
  ⟨(C8_api_key_attached_token_stripped "AIza" [("token", ParamVal.str "secret")]).1,
   (C8_api_key_attached_token_stripped "AIza" [("token", ParamVal.str "secret")]).2.2
     (ParamVal.str "secret")⟩

/-! ## C6: the update field mask -/

/-- Entry membership in a Python dict value. -/
def pyDictMem (k : String) (v : PyVal) : PyDict → Prop
  | .nil => False
  | .cons k' v' tl => (k = k' ∧ v = v') ∨ pyDictMem k v tl

theorem mem_pyDictKeys_iff : ∀ (k : String) (d : PyDict),
    k ∈ pyDictKeys d ↔ ∃ v, pyDictMem k v d
  | k, .nil => by simp [pyDictKeys, pyDictMem]
  | k, .cons k' v' tl => by
    have ih := mem_pyDictKeys_iff k tl
    simp only [pyDictKeys, List.mem_cons, pyDictMem, ih]
    constructor
    · rintro (rfl | ⟨v, hv⟩)
      · exact ⟨v', Or.inl ⟨rfl, rfl⟩⟩
      · exact ⟨v, Or.inr hv⟩
    · rintro ⟨v, ⟨rfl, rfl⟩ | hv⟩
      · exact Or.inl rfl
      · exact Or.inr ⟨v, hv⟩

/-- C6: the `updateMask.fieldPaths` parameter dispatched by
`update_document` is exactly `list(updates.keys())`: a field name is in
the mask iff it is a key of the updates map. -/
theorem C6_update_mask_exactly_updated_keys (api_key : String) (updates : PyDict)
    (_hne : updates ≠ PyDict.nil) :
    ("updateMask.fieldPaths", ParamVal.strList (pyDictKeys updates)) ∈
      make_request_params api_key (update_document_params updates) ∧
    (∀ k, k ∈ pyDictKeys updates ↔ ∃ v, pyDictMem k v updates) := by
  refine ⟨?_, fun k => mem_pyDictKeys_iff k updates⟩
  simp [make_request_params, update_document_params, dictSetParam, dictPopToken]

/-- Closed check of C6 on a concrete updates map. -/
theorem C6_witness :
    (PyDict.cons "title" (PyVal.pystr "Cook") PyDict.nil ≠ PyDict.nil) ∧
    ("updateMask.fieldPaths", ParamVal.strList ["title"]) ∈
      make_request_params "AIza"
        (update_document_params (PyDict.cons "title" (PyVal.pystr "Cook") PyDict.nil)) ∧
    ("title" ∈ pyDictKeys (PyDict.cons "title" (PyVal.pystr "Cook") PyDict.nil) ↔
      ∃ v, pyDictMem "title" v (PyDict.cons "title" (PyVal.pystr "Cook") PyDict.nil)) :=
  ⟨fun h => PyDict.noConfusion h,
   (C6_update_mask_exactly_updated_keys "AIza"
      (PyDict.cons "title" (PyVal.pystr "Cook") PyDict.nil)
      (fun h => PyDict.noConfusion h)).1,
   (C6_update_mask_exactly_updated_keys "AIza"
      (PyDict.cons "title" (PyVal.pystr "Cook") PyDict.nil)
      (fun h => PyDict.noConfusion h)).2 "title"⟩

/-! ## C7: cache-key derivation -/

/-- The source condition of lines 76-79, positively: the id is used as
is iff it is a string and `isalnum()`. -/
def plain_id : PyVal → Bool
  | .pystr s => pyIsAlnum s
  | _ => false

/-- C7: cache-key derivation is deterministic; a plain alphanumeric
string id is embedded directly; any other id is replaced by the MD5 hex
digest of its `str(...)` form, and for a non-alphanumeric string id the
resulting key differs from the key the plain rule would have built. -/
theorem C7_cache_key_derivation :
    (∀ (c1 c2 : String) (i1 i2 : PyVal), c1 = c2 → i1 = i2 →
      get_cache_key c1 i1 = get_cache_key c2 i2) ∧
    (∀ (collection s : String), pyIsAlnum s = true →
      get_cache_key collection (PyVal.pystr s) = "firestore_" ++ collection ++ "_" ++ s) ∧
    (∀ (collection : String) (id : PyVal), plain_id id = false →
      get_cache_key collection id
        = "firestore_" ++ collection ++ "_" ++ md5Hexdigest (pyStr id)) ∧
    (∀ (collection s : String), pyIsAlnum s = false →
      get_cache_key collection (PyVal.pystr s) ≠ "firestore_" ++ collection ++ "_" ++ s) := by
  refine ⟨?_, ?_, ?_, ?_⟩
  · intro c1 c2 i1 i2 hc hi
    rw [hc, hi]
  · intro collection s h
    simp [get_cache_key, safe_document_id, h]
  · intro collection id h
    cases id with
    | pystr s =>
      have hs : pyIsAlnum s = false := h
      simp [get_cache_key, safe_document_id, hs, pyStr]
    | pyint i => rfl
    | pybool b => rfl
    | pyfloat q => rfl
    | pynone => rfl
    | pylist xs => rfl
    | pydict fs => rfl
  · intro collection s h heq
    have hkey : get_cache_key collection (PyVal.pystr s)
        = "firestore_" ++ collection ++ "_" ++ md5Hexdigest s := by
      simp [get_cache_key, safe_document_id, h]
    rw [hkey] at heq
    exact md5Hexdigest_ne_of_not_alnum h (string_append_left_cancel heq)

/-- Closed check of C7 at concrete ids: a plain alphanumeric id is
embedded directly; a non-alphanumeric id yields a key different from
the plain embedding. -/
theorem C7_witness :
    pyIsAlnum "abc123" = true ∧
    get_cache_key "c" (PyVal.pystr "abc123") = "firestore_" ++ "c" ++ "_" ++ "abc123" ∧
    pyIsAlnum "weird id!" = false ∧
    get_cache_key "c" (PyVal.pystr "weird id!") ≠ "firestore_" ++ "c" ++ "_" ++ "weird id!" :=
  ⟨by decide, C7_cache_key_derivation.2.1 "c" "abc123" (by decide),
   by decide, C7_cache_key_derivation.2.2.2 "c" "weird id!" (by decide)⟩

/-! ## C5: `get_document` status handling on a cache miss -/

/-- C5: on a cache-miss call of `get_document`, status 200 returns the
decoded document and writes the cache only when caching is enabled;
status 404 returns the absence sentinel with no cache write; any other
status also returns the absence sentinel with no cache write, the two
non-200 outcomes differing only in the log branch. -/
theorem C5_get_document_statuses (collection : String) (document_id : PyVal)
    (use_cache : Bool) (c : Cache) (resp : HttpResponse)
    (hmiss : use_cache = true →
      cacheHitVal c (get_cache_key collection document_id) = Option.none) :
    (resp.status = 200 →
      get_document collection document_id use_cache c resp =
        ⟨convert_firestore_document resp.doc,
         if use_cache then
           cacheSet c (get_cache_key collection document_id)
             (convert_firestore_document resp.doc)
         else c,
         GetLog.successLog⟩) ∧
    (resp.status = 404 →
      get_document collection document_id use_cache c resp
        = ⟨Option.none, c, GetLog.notFoundLog⟩) ∧
    (resp.status ≠ 200 → resp.status ≠ 404 →
      get_document collection document_id use_cache c resp
        = ⟨Option.none, c, GetLog.errorLog⟩) := by
  have hcache : (if use_cache then
      cacheHitVal c (get_cache_key collection document_id) else Option.none)
      = Option.none := by
    cases use_cache with
    | false => rfl
    | true => exact hmiss rfl
  refine ⟨?_, ?_, ?_⟩
  · intro h200
    simp [get_document, hcache, h200]
  · intro h404
    simp [get_document, hcache, h404]
  · intro h200 h404
    simp [get_document, hcache, h200, h404]

/-- Closed check of C5: a 404 on an empty cache returns the sentinel
with the warning log and an unchanged cache. -/
theorem C5_witness :
    cacheHitVal [] (get_cache_key "jobs" (PyVal.pystr "J1")) = Option.none ∧
    get_document "jobs" (PyVal.pystr "J1") true [] ⟨404, WireDoc.mk Option.none⟩
      = ⟨Option.none, [], GetLog.notFoundLog⟩ :=
  ⟨rfl, (C5_get_document_statuses "jobs" (PyVal.pystr "J1") true []
    ⟨404, WireDoc.mk Option.none⟩ (fun _ => rfl)).2.1 rfl⟩

/-! ## C3: write-path cache invalidation -/

/-- C3 amended: when the document id is a plain alphanumeric string (so
the read-path key derivation and the write-path raw-key interpolation
coincide), every successful `set_document`, `update_document` or
`delete_document` deletes the cache entry `get_document` reads; for
other ids the write deletes a different key (see the counterexample). -/
theorem C3_amended_write_invalidates_read_key (collection s : String)
    (halnum : pyIsAlnum s = true) (data : PyDict) (c : Cache) (resp : HttpResponse) :
    ((set_document collection (PyVal.pystr s) data c resp).1 = true →
      cacheHitVal (set_document collection (PyVal.pystr s) data c resp).2
        (get_cache_key collection (PyVal.pystr s)) = Option.none) ∧
    ((update_document collection (PyVal.pystr s) data c resp).1 = true →
      cacheHitVal (update_document collection (PyVal.pystr s) data c resp).2
        (get_cache_key collection (PyVal.pystr s)) = Option.none) ∧
    ((delete_document collection (PyVal.pystr s) c resp).1 = true →
      cacheHitVal (delete_document collection (PyVal.pystr s) c resp).2
        (get_cache_key collection (PyVal.pystr s)) = Option.none) := by
  have hkey : get_cache_key collection (PyVal.pystr s)
      = write_cache_key collection (PyVal.pystr s) := by
    simp [get_cache_key, write_cache_key, safe_document_id, pyStr, halnum]
  by_cases hst : resp.status = 200
  · refine ⟨fun _ => ?_, fun _ => ?_, fun _ => ?_⟩ <;>
      simp [set_document, update_document, delete_document, hst, hkey,
        cacheHitVal_cacheDelete]
  · refine ⟨fun hcontra => ?_, fun hcontra => ?_, fun hcontra => ?_⟩ <;>
      simp [set_document, update_document, delete_document, hst] at hcontra

set_option maxRecDepth 100000 in
/-- C3 is false as stated: for the non-alphanumeric id `"weird id!"`,
`get_document` reads the MD5-hashed key while a successful
`set_document` deletes the raw-id key, so a subsequent cached read still
returns the value cached before the write. -/
theorem C3_counterexample :
    (set_document "c" (PyVal.pystr "weird id!") PyDict.nil
        [(get_cache_key "c" (PyVal.pystr "weird id!"),
          Option.some (PyDict.cons "title" (PyVal.pystr "stale") PyDict.nil))]
        ⟨200, WireDoc.mk Option.none⟩).1 = true ∧
    (get_document "c" (PyVal.pystr "weird id!") true
        (set_document "c" (PyVal.pystr "weird id!") PyDict.nil
          [(get_cache_key "c" (PyVal.pystr "weird id!"),
            Option.some (PyDict.cons "title" (PyVal.pystr "stale") PyDict.nil))]
          ⟨200, WireDoc.mk Option.none⟩).2
        ⟨404, WireDoc.mk Option.none⟩).result
      = Option.some (PyDict.cons "title" (PyVal.pystr "stale") PyDict.nil) := by
  exact ⟨rfl, rfl⟩

/-- Closed check of the amended C3: a successful write with a plain
alphanumeric id does invalidate the entry the read path uses. -/
theorem C3_amended_witness :
    pyIsAlnum "abc123" = true ∧
    cacheHitVal (set_document "jobs" (PyVal.pystr "abc123") PyDict.nil
        [("firestore_jobs_abc123",
          Option.some (PyDict.cons "title" (PyVal.pystr "old") PyDict.nil))]
        ⟨200, WireDoc.mk Option.none⟩).2
      (get_cache_key "jobs" (PyVal.pystr "abc123")) = Option.none :=
  ⟨by decide,
   (C3_amended_write_invalidates_read_key "jobs" "abc123" (by decide) PyDict.nil
      [("firestore_jobs_abc123",
        Option.some (PyDict.cons "title" (PyVal.pystr "old") PyDict.nil))]
      ⟨200, WireDoc.mk Option.none⟩).1 rfl⟩

/-! ## C2: the structured-query builder -/

mutual

/-- Module-level `convert_value_to_firestore_format` (lines 576-598):
like the class encoder except that it has no `dict` branch, so a dict
falls into the final stringify fallback `{"stringValue": str(value)}`. -/
def convert_value_to_firestore_format : PyVal → WireVal
  | .pybool true => .booleanValue true
  | .pybool false => .booleanValue false
  | .pystr s => .stringValue s
  | .pyint i => .integerValue (intToDecString i)
  | .pyfloat q => .doubleValue q
  | .pylist xs => .arrayValue (convert_value_to_firestore_format_list xs)
  | .pynone => .nullValue
  | .pydict fs => .stringValue (pyStr (.pydict fs))

/-- `[convert_value_to_firestore_format(item) for item in value]`. -/
def convert_value_to_firestore_format_list : PyList → WireList
  | .nil => .nil
  | .cons v tl =>
    .cons (convert_value_to_firestore_format v) (convert_value_to_firestore_format_list tl)

end

/-- One caller-supplied filter dict `{'field', 'operator', 'value'}`. -/
structure FilterSpec where
  field : String
  operator : String
  value : PyVal

/-- One wire `fieldFilter` object (lines 639-645). -/
structure FieldFilter where
  fieldPath : String
  op : String
  value : WireVal

/-- The `where` clause of a structured query: a bare `fieldFilter` or a
`compositeFilter` carrying an operator and a filter list. -/
inductive WhereClause : Type where
  | fieldFilter (f : FieldFilter)
  | compositeFilter (op : String) (filters : List FieldFilter)

/-- The `structuredQuery` body (lines 659-664). -/
structure StructuredQuery where
  collectionId : String
  whereClause : WhereClause

/-- Lines 639-646: the `fieldFilter` built for one filter item. -/
def build_field_filter (f : FilterSpec) : FieldFilter :=
  ⟨f.field, f.operator, convert_value_to_firestore_format f.value⟩

/-- `query_firestore_collection_with_multiple_filters`, query-building
part (lines 636-664): the conditions are built in caller order; a
single condition is used bare, any other count is wrapped in an `AND`
`compositeFilter`. -/
def build_multi_filter_query (collection : String) (filters : List FilterSpec) :
    StructuredQuery :=
  match filters.map build_field_filter with
  | [f] => ⟨collection, WhereClause.fieldFilter f⟩
  | conds => ⟨collection, WhereClause.compositeFilter "AND" conds⟩

/-- C2: with exactly one filter the `where` clause is the bare
`fieldFilter` (no composite wrapper); with more than one it is an `AND`
`compositeFilter` whose filters appear in caller-supplied order. -/
theorem C2_single_bare_multi_composite :
    (∀ (collection : String) (f : FilterSpec),
      build_multi_filter_query collection [f]
        = ⟨collection, WhereClause.fieldFilter (build_field_filter f)⟩) ∧
    (∀ (collection : String) (filters : List FilterSpec), 1 < filters.length →
      build_multi_filter_query collection filters
        = ⟨collection,
           WhereClause.compositeFilter "AND" (filters.map build_field_filter)⟩) := by
  constructor
  · intro collection f
    rfl
  · intro collection filters hlen
    match filters with
    | [] => simp at hlen
    | [f] => simp at hlen
    | f1 :: f2 :: rest => rfl

/-- Closed check of C2 on the two-filter query the verified-restaurants
call site issues. -/
theorem C2_witness :
    1 < ([⟨"restoState", "EQUAL", PyVal.pystr "CA"⟩,
          ⟨"is_verified", "EQUAL", PyVal.pybool true⟩] : List FilterSpec).length ∧
    build_multi_filter_query "restaurants"
        [⟨"restoState", "EQUAL", PyVal.pystr "CA"⟩,
         ⟨"is_verified", "EQUAL", PyVal.pybool true⟩]
      = ⟨"restaurants", WhereClause.compositeFilter "AND"
          [build_field_filter ⟨"restoState", "EQUAL", PyVal.pystr "CA"⟩,
           build_field_filter ⟨"is_verified", "EQUAL", PyVal.pybool true⟩]⟩ :=
  ⟨by decide,
   C2_single_bare_multi_composite.2 "restaurants"
     [⟨"restoState", "EQUAL", PyVal.pystr "CA"⟩,
      ⟨"is_verified", "EQUAL", PyVal.pybool true⟩] (by decide)⟩

/-! ## C9: list/query operation error handling -/

/-- The outcome of one HTTP attempt: a parsed response, or a raised
`requests` exception (network error or timeout), caught by the
functions' `except` clauses. -/
inductive HttpAttempt (α : Type) : Type where
  | completed (response : α)
  | raised

/-- The response to a collection GET: status and the body's `documents`
list; `none` models an absent `documents` key (`data.get('documents',
[])`). -/
structure CollectionGetResponse where
  status : Nat
  documents : Option (List WireDoc)

/-- The response to a `:runQuery` POST: status and the response items,
each carrying a `document` payload or not. -/
structure RunQueryResponse where
  status : Nat
  items : List (Option WireDoc)

/-- `get_all_documents_from_collection` (lines 834-854), with the HTTP
leg abstracted: on 200 decode every entry of `documents`; on any other
status, or when the request raises, return the empty list. -/
def get_all_documents_from_collection
    (attempt : HttpAttempt CollectionGetResponse) : List (Option PyDict) :=
  match attempt with
  | .raised => []
  | .completed r =>
    if r.status = 200 then (r.documents.getD []).map convert_firestore_document
    else []

/-- `query_firestore_collection_with_multiple_filters`, response
handling (lines 666-680): on 200 decode the `document` of every item
that has one, skipping items without; on any other status, or when the
request raises, return the empty list. -/
def multi_filter_query_results (attempt : HttpAttempt RunQueryResponse) :
    List (Option PyDict) :=
  match attempt with
  | .raised => []
  | .completed r =>
    if r.status = 200 then
      r.items.filterMap (fun it => it.map convert_firestore_document)
    else []

theorem filterMap_option_map {α β : Type} (f : α → β) (l : List (Option α)) :
    l.filterMap (fun it => it.map f) = (l.filterMap id).map f := by
  induction l with
  | nil => rfl
  | cons hd tl ih => cases hd <;> simp [ih]

/-- C9: both list/query operations return the empty list on a raised
network/timeout exception or a non-200 status, and on 200 return the
decoded documents — the query path keeping exactly the items that carry
a `document` key, in order, decoding each. -/
theorem C9_list_query_empty_on_failure :
    (get_all_documents_from_collection HttpAttempt.raised = [] ∧
     multi_filter_query_results HttpAttempt.raised = []) ∧
    (∀ r : CollectionGetResponse, r.status ≠ 200 →
      get_all_documents_from_collection (HttpAttempt.completed r) = []) ∧
    (∀ r : RunQueryResponse, r.status ≠ 200 →
      multi_filter_query_results (HttpAttempt.completed r) = []) ∧
    (∀ r : CollectionGetResponse, r.status = 200 →
      get_all_documents_from_collection (HttpAttempt.completed r)
        = (r.documents.getD []).map convert_firestore_document) ∧
    (∀ r : RunQueryResponse, r.status = 200 →
      multi_filter_query_results (HttpAttempt.completed r)
        = (r.items.filterMap id).map convert_firestore_document) := by
  refine ⟨⟨rfl, rfl⟩, ?_, ?_, ?_, ?_⟩
  · intro r h
    simp [get_all_documents_from_collection, h]
  · intro r h
    simp [multi_filter_query_results, h]
  · intro r h
    simp [get_all_documents_from_collection, h]
  · intro r h
    simp [multi_filter_query_results, h, filterMap_option_map]

/-- Closed check of C9: a 500 listing yields `[]`; a 200 query response
with one documentless item and one document decodes to exactly the
latter. -/
theorem C9_witness :
    ((500 : Nat) ≠ 200) ∧
    get_all_documents_from_collection
        (HttpAttempt.completed ⟨500, Option.none⟩) = [] ∧
    multi_filter_query_results
        (HttpAttempt.completed ⟨200, [Option.none, Option.some (WireDoc.mk Option.none)]⟩)
      = (([Option.none, Option.some (WireDoc.mk Option.none)] :
            List (Option WireDoc)).filterMap id).map convert_firestore_document :=
  ⟨by decide,
   C9_list_query_empty_on_failure.2.1 ⟨500, Option.none⟩ (by decide),
   C9_list_query_empty_on_failure.2.2.2.2
     ⟨200, [Option.none, Option.some (WireDoc.mk Option.none)]⟩ rfl⟩

/-! ## C10: the module-level writers' field encoding -/

/-- One field conversion of the module-level writers
(`update_firestore_document` lines 317-326, `set_firestore_document`
lines 359-368): the branch chain tests `isinstance(value, str)`, then
`isinstance(value, int)` — true for Python booleans, so a boolean is
encoded as `{"integerValue": str(value)}` (`"True"`/`"False"`) and the
later `isinstance(value, bool)` branch is unreachable — then `float`
and `None`; a value matching no branch (a list, a dict) contributes no
field at all. -/
def module_write_field_value (v : PyVal) : Option WireVal :=
  match v with
  | .pystr s => Option.some (WireVal.stringValue s)
  | .pyint i => Option.some (WireVal.integerValue (intToDecString i))
  | .pybool b => Option.some (WireVal.integerValue (pyStr (PyVal.pybool b)))
  | .pyfloat q => Option.some (WireVal.doubleValue q)
  | .pynone => Option.some WireVal.nullValue
  | .pylist _ => Option.none
  | .pydict _ => Option.none

/-- `{k: v for k, v in data.items() if k != 'token'}` (lines 306, 355). -/
def strip_token_key : PyDict → PyDict
  | .nil => .nil
  | .cons k v tl =>
    if k = "token" then strip_token_key tl else .cons k v (strip_token_key tl)

/-- The `firestore_fields` accumulation loop shared by both writers. -/
def module_write_fields : PyDict → List (String × WireVal)
  | .nil => []
  | .cons k v tl =>
    match module_write_field_value v with
    | Option.some w => (k, w) :: module_write_fields tl
    | Option.none => module_write_fields tl

/-- The `fields` body `set_firestore_document` sends (lines 355-371). -/
def set_firestore_document_fields (data : PyDict) : List (String × WireVal) :=
  module_write_fields (strip_token_key data)

/-- The `fields` body `update_firestore_document` sends (lines 306-330). -/
def update_firestore_document_fields (updates : PyDict) : List (String × WireVal) :=
  module_write_fields (strip_token_key updates)

theorem pyDictMem_strip_token : ∀ (k : String) (v : PyVal) (d : PyDict),
    pyDictMem k v (strip_token_key d) ↔ (pyDictMem k v d ∧ k ≠ "token")
  | k, v, .nil => by simp [strip_token_key, pyDictMem]
  | k, v, .cons k' v' tl => by
    have ih := pyDictMem_strip_token k v tl
    by_cases hk : k' = "token"
    · subst hk
      have hstep : strip_token_key (PyDict.cons "token" v' tl) = strip_token_key tl := by
        simp [strip_token_key]
      rw [hstep, ih]
      simp only [pyDictMem]
      constructor
      · rintro ⟨h1, h2⟩
        exact ⟨Or.inr h1, h2⟩
      · rintro ⟨⟨rfl, rfl⟩ | h1, h2⟩
        · exact absurd rfl h2
        · exact ⟨h1, h2⟩
    · have hstep : strip_token_key (PyDict.cons k' v' tl)
          = PyDict.cons k' v' (strip_token_key tl) := by
        simp [strip_token_key, hk]
      rw [hstep]
      simp only [pyDictMem, ih]
      constructor
      · rintro (⟨rfl, rfl⟩ | ⟨h1, h2⟩)
        · exact ⟨Or.inl ⟨rfl, rfl⟩, hk⟩
        · exact ⟨Or.inr h1, h2⟩
      · rintro ⟨⟨rfl, rfl⟩ | h1, h2⟩
        · exact Or.inl ⟨rfl, rfl⟩
        · exact Or.inr ⟨h1, h2⟩

theorem mem_module_write_fields_iff : ∀ (k : String) (w : WireVal) (d : PyDict),
    (k, w) ∈ module_write_fields d ↔
      ∃ v, pyDictMem k v d ∧ module_write_field_value v = Option.some w
  | k, w, .nil => by simp [module_write_fields, pyDictMem]
  | k, w, .cons k' v' tl => by
    have ih := mem_module_write_fields_iff k w tl
    cases hcv : module_write_field_value v' with
    | none =>
      simp only [module_write_fields, hcv, ih, pyDictMem]
      constructor
      · rintro ⟨v, h1, h2⟩
        exact ⟨v, Or.inr h1, h2⟩
      · rintro ⟨v, ⟨rfl, rfl⟩ | h1, h2⟩
        · rw [hcv] at h2
          cases h2
        · exact ⟨v, h1, h2⟩
    | some w' =>
      simp only [module_write_fields, hcv, List.mem_cons, ih, pyDictMem]
      constructor
      · rintro (heq | ⟨v, h1, h2⟩)
        · rw [Prod.mk.injEq] at heq
          exact ⟨v', Or.inl ⟨heq.1, rfl⟩, by rw [hcv, heq.2]⟩
        · exact ⟨v, Or.inr h1, h2⟩
      · rintro ⟨v, ⟨rfl, rfl⟩ | h1, h2⟩
        · rw [hcv] at h2
          injection h2 with h2
          exact Or.inl (by rw [h2])
        · exact Or.inr ⟨v, h1, h2⟩

theorem pyDictMem_unique : ∀ (d : PyDict), (pyDictKeys d).Nodup →
    ∀ (k : String) (v v' : PyVal), pyDictMem k v d → pyDictMem k v' d → v = v'
  | .nil => by
    intro _ k v v' h
    cases h
  | .cons k'' v'' tl => by
    intro hnd k v v' h1 h2
    rw [pyDictKeys, List.nodup_cons] at hnd
    rcases h1 with ⟨hk1, hv1⟩ | h1 <;> rcases h2 with ⟨hk2, hv2⟩ | h2
    · rw [hv1, hv2]
    · exact absurd (hk1 ▸ (mem_pyDictKeys_iff k tl).2 ⟨v', h2⟩) hnd.1
    · exact absurd (hk2 ▸ (mem_pyDictKeys_iff k tl).2 ⟨v, h1⟩) hnd.1
    · exact pyDictMem_unique tl hnd.2 k v v' h1 h2

theorem module_write_field_value_ne_boolean (v : PyVal) (b : Bool) :
    module_write_field_value v ≠ Option.some (WireVal.booleanValue b) := by
  cases v <;> simp [module_write_field_value]

/-- C10: in the module-level writers, a boolean field is captured by the
`isinstance(value, int)` branch and sent as `integerValue` carrying
`str(value)` (so the `booleanValue` branch never fires), while a field
whose value is a list or a dict is silently omitted from the request
body; both writers build the identical fields map. -/
theorem C10_module_writer_bool_as_integer_and_omissions (data : PyDict)
    (hnodup : (pyDictKeys data).Nodup) :
    set_firestore_document_fields data = update_firestore_document_fields data ∧
    (∀ (k : String) (b : Bool), pyDictMem k (PyVal.pybool b) data → k ≠ "token" →
      (k, WireVal.integerValue (pyStr (PyVal.pybool b)))
        ∈ set_firestore_document_fields data) ∧
    (∀ (k : String) (v : PyVal), pyDictMem k v data →
      module_write_field_value v = Option.none →
      ∀ w, (k, w) ∉ set_firestore_document_fields data) ∧
    (∀ xs, module_write_field_value (PyVal.pylist xs) = Option.none) ∧
    (∀ fs, module_write_field_value (PyVal.pydict fs) = Option.none) ∧
    (∀ (k : String) (b : Bool),
      (k, WireVal.booleanValue b) ∉ set_firestore_document_fields data) := by
  refine ⟨rfl, ?_, ?_, fun xs => rfl, fun fs => rfl, ?_⟩
  · intro k b hmem hne
    exact (mem_module_write_fields_iff ..).2
      ⟨PyVal.pybool b, (pyDictMem_strip_token ..).2 ⟨hmem, hne⟩, rfl⟩
  · intro k v hmem hconv w hinf
    obtain ⟨v', hmem', hconv'⟩ := (mem_module_write_fields_iff ..).1 hinf
    have hmem'' : pyDictMem k v' data := ((pyDictMem_strip_token ..).1 hmem').1
    rw [pyDictMem_unique data hnodup k v' v hmem'' hmem, hconv] at hconv'
    cases hconv'
  · intro k b hinf
    obtain ⟨v', _, hconv'⟩ := (mem_module_write_fields_iff ..).1 hinf
    exact module_write_field_value_ne_boolean v' b hconv'

/-- Closed check of C10: in
`{"title": "Cook", "is_avail": True, "tags": ["fast"]}` the boolean goes
out as `integerValue "True"` and the list field is dropped. -/
theorem C10_witness :
    (pyDictKeys (PyDict.cons "title" (PyVal.pystr "Cook")
        (PyDict.cons "is_avail" (PyVal.pybool true)
          (PyDict.cons "tags" (PyVal.pylist (PyList.cons (PyVal.pystr "fast") PyList.nil))
            PyDict.nil)))).Nodup ∧
    ("is_avail", WireVal.integerValue (pyStr (PyVal.pybool true)))
      ∈ set_firestore_document_fields (PyDict.cons "title" (PyVal.pystr "Cook")
          (PyDict.cons "is_avail" (PyVal.pybool true)
            (PyDict.cons "tags" (PyVal.pylist (PyList.cons (PyVal.pystr "fast") PyList.nil))
              PyDict.nil))) ∧
    ("tags", WireVal.nullValue)
      ∉ set_firestore_document_fields (PyDict.cons "title" (PyVal.pystr "Cook")
          (PyDict.cons "is_avail" (PyVal.pybool true)
            (PyDict.cons "tags" (PyVal.pylist (PyList.cons (PyVal.pystr "fast") PyList.nil))
              PyDict.nil))) :=
  ⟨by decide,
   (C10_module_writer_bool_as_integer_and_omissions
      (PyDict.cons "title" (PyVal.pystr "Cook")
        (PyDict.cons "is_avail" (PyVal.pybool true)
          (PyDict.cons "tags" (PyVal.pylist (PyList.cons (PyVal.pystr "fast") PyList.nil))
            PyDict.nil))) (by decide)).2.1
     "is_avail" true (Or.inr (Or.inl ⟨rfl, rfl⟩)) (by decide),
   (C10_module_writer_bool_as_integer_and_omissions
      (PyDict.cons "title" (PyVal.pystr "Cook")
        (PyDict.cons "is_avail" (PyVal.pybool true)
          (PyDict.cons "tags" (PyVal.pylist (PyList.cons (PyVal.pystr "fast") PyList.nil))
            PyDict.nil))) (by decide)).2.2.1
     "tags" (PyVal.pylist (PyList.cons (PyVal.pystr "fast") PyList.nil))
     (Or.inr (Or.inr (Or.inl ⟨rfl, rfl⟩))) rfl WireVal.nullValue⟩

/-- Closed check of C1: a nested document round-trips, and an encoded
float does not decode to an integer. -/
theorem C1_witness :
    convert_firestore_value (clientConvertValue
        (PyVal.pydict (PyDict.cons "n" (PyVal.pyint 7)
          (PyDict.cons "xs" (PyVal.pylist (PyList.cons (PyVal.pybool true) PyList.nil))
            PyDict.nil))))
      = PyVal.pydict (PyDict.cons "n" (PyVal.pyint 7)
          (PyDict.cons "xs" (PyVal.pylist (PyList.cons (PyVal.pybool true) PyList.nil))
            PyDict.nil)) ∧
    convert_firestore_value (clientConvertValue (PyVal.pyfloat 2)) ≠ PyVal.pyint 2 :=
  ⟨C1_value_codec_roundtrip.1 _, C1_value_codec_roundtrip.2 2 2⟩
